import Mathlib

/-!
Verification development for the font-app-server synchronization hub.

The hub (src/sync_engine.rs, src/app_state.rs, src/storage.rs) is embedded
shallowly:

* wire payloads are modelled at the JSON-document level (`Json`), with the
  serde-derived codecs of `SyncEnvelope` (`#[serde(tag = "type", content =
  "data")]` on `SyncMessage`) translated field by field;
* a connected session's `tokio::sync::mpsc::UnboundedSender<Message>` is
  modelled as an open/closed flag plus the ordered list of payloads that were
  successfully enqueued;
* the per-client loop body of `handle_socket` (sync_engine.rs:120-140) and the
  notification-relay loop body spawned in `create_app_state`
  (app_state.rs:38-63) become pure state-transformers on the client registry;
* the bounded `mpsc::channel::<SyncMessage>(100)` used by `notify`
  (app_state.rs:34, storage.rs:186-195) is modelled as a capacity-bounded
  queue, with one poll of the awaited `send` future as a step function.
-/

/-- Identifier produced by `uuid::Uuid`. serde puts it on the wire as its
string rendering, so the model keeps it as an opaque string. -/
structure Uuid where
  val : String
deriving DecidableEq, Repr

/-- Relative path payload (`std::path::PathBuf`); the hub passes it through
without inspecting it, and serde serializes it as a string. -/
abbrev PathBuf := String

/-- `std::time::SystemTime` with the field names serde uses on the wire. -/
structure SystemTime where
  secs_since_epoch : Nat
  nanos_since_epoch : Nat
deriving DecidableEq, Repr

/-- `SyncSource` from sync_engine.rs:64-68. -/
inductive SyncSource where
  | Client
  | Server
deriving DecidableEq, Repr

/-- `SyncMessage` from sync_engine.rs:13-62, one constructor per variant with
the variant's fields in declaration order. -/
inductive SyncMessage where
  | Init (client_id : Uuid)
  | FileCreated (path : PathBuf) (source : SyncSource) (client_id : Uuid) (user_id : Uuid)
  | FolderCreated (path : PathBuf) (client_id : Uuid) (user_id : Uuid)
  | FileChanged (path : PathBuf) (timestamp : SystemTime) (source : SyncSource)
      (client_id : Uuid) (user_id : Uuid)
  | FileDeleted (path : PathBuf) (source : SyncSource) (client_id : Uuid) (user_id : Uuid)
  | FolderDeleted (path : PathBuf) (client_id : Uuid) (user_id : Uuid)
  | ObjectCreated (path : PathBuf) (source : SyncSource) (client_id : Uuid) (user_id : Uuid)
  | ObjectDeleted (path : PathBuf) (source : SyncSource) (client_id : Uuid) (user_id : Uuid)
  | Ping
  | Pong
deriving DecidableEq, Repr

/-- `SyncEnvelope` from sync_engine.rs:70-74. -/
structure SyncEnvelope where
  sender_id : Uuid
  message : SyncMessage
deriving DecidableEq, Repr

/-- JSON documents, at the granularity the protocol uses: strings, unsigned
numbers and objects with ordered fields. -/
inductive Json where
  | str (s : String)
  | num (n : Nat)
  | obj (fields : List (String × Json))
deriving Repr

/-- Field lookup in a JSON object, as serde's map-based deserializer sees it
(first occurrence wins, non-objects have no fields). -/
def Json.get : Json → String → Option Json
  | .obj fields, k => fields.lookup k
  | _, _ => none

/-- serde serialization of a `Uuid`. -/
def Uuid.toJson (u : Uuid) : Json := .str u.val

/-- serde deserialization of a `Uuid`. -/
def Uuid.fromJson : Json → Option Uuid
  | .str s => some ⟨s⟩
  | _ => none

/-- serde serialization of a `PathBuf`. -/
def pathToJson (p : PathBuf) : Json := .str p

/-- serde deserialization of a `PathBuf`. -/
def pathFromJson : Json → Option PathBuf
  | .str s => some s
  | _ => none

/-- serde serialization of a `SystemTime`. -/
def SystemTime.toJson (t : SystemTime) : Json :=
  .obj [("secs_since_epoch", .num t.secs_since_epoch),
        ("nanos_since_epoch", .num t.nanos_since_epoch)]

/-- serde deserialization of a `SystemTime`. -/
def SystemTime.fromJson (j : Json) : Option SystemTime :=
  match j.get "secs_since_epoch", j.get "nanos_since_epoch" with
  | some (.num s), some (.num n) => some ⟨s, n⟩
  | _, _ => none

/-- serde serialization of `SyncSource` (externally tagged unit variants
serialize as bare strings). -/
def SyncSource.toJson : SyncSource → Json
  | .Client => .str "Client"
  | .Server => .str "Server"

/-- serde deserialization of `SyncSource`. -/
def SyncSource.fromJson : Json → Option SyncSource
  | .str "Client" => some .Client
  | .str "Server" => some .Server
  | _ => none

/-- serde serialization of `SyncMessage` under
`#[serde(tag = "type", content = "data")]`: struct variants become
`{"type": tag, "data": {fields}}`, unit variants `{"type": tag}`. -/
def SyncMessage.toJson : SyncMessage → Json
  | .Init cid =>
      .obj [("type", .str "Init"), ("data", .obj [("client_id", cid.toJson)])]
  | .FileCreated p s cid uid =>
      .obj [("type", .str "FileCreated"),
            ("data", .obj [("path", pathToJson p), ("source", s.toJson),
                           ("client_id", cid.toJson), ("user_id", uid.toJson)])]
  | .FolderCreated p cid uid =>
      .obj [("type", .str "FolderCreated"),
            ("data", .obj [("path", pathToJson p),
                           ("client_id", cid.toJson), ("user_id", uid.toJson)])]
  | .FileChanged p t s cid uid =>
      .obj [("type", .str "FileChanged"),
            ("data", .obj [("path", pathToJson p), ("timestamp", t.toJson),
                           ("source", s.toJson),
                           ("client_id", cid.toJson), ("user_id", uid.toJson)])]
  | .FileDeleted p s cid uid =>
      .obj [("type", .str "FileDeleted"),
            ("data", .obj [("path", pathToJson p), ("source", s.toJson),
                           ("client_id", cid.toJson), ("user_id", uid.toJson)])]
  | .FolderDeleted p cid uid =>
      .obj [("type", .str "FolderDeleted"),
            ("data", .obj [("path", pathToJson p),
                           ("client_id", cid.toJson), ("user_id", uid.toJson)])]
  | .ObjectCreated p s cid uid =>
      .obj [("type", .str "ObjectCreated"),
            ("data", .obj [("path", pathToJson p), ("source", s.toJson),
                           ("client_id", cid.toJson), ("user_id", uid.toJson)])]
  | .ObjectDeleted p s cid uid =>
      .obj [("type", .str "ObjectDeleted"),
            ("data", .obj [("path", pathToJson p), ("source", s.toJson),
                           ("client_id", cid.toJson), ("user_id", uid.toJson)])]
  | .Ping => .obj [("type", .str "Ping")]
  | .Pong => .obj [("type", .str "Pong")]

/-- Decoder for the repeated `{path, source, client_id, user_id}` field shape
shared by the File*/Object* struct variants. -/
def decodePathSourceIds (d : Json) : Option (PathBuf × SyncSource × Uuid × Uuid) :=
  match (d.get "path").bind pathFromJson, (d.get "source").bind SyncSource.fromJson,
        (d.get "client_id").bind Uuid.fromJson, (d.get "user_id").bind Uuid.fromJson with
  | some p, some s, some cid, some uid => some (p, s, cid, uid)
  | _, _, _, _ => none

/-- Decoder for the `{path, client_id, user_id}` field shape of the Folder*
variants. -/
def decodePathIds (d : Json) : Option (PathBuf × Uuid × Uuid) :=
  match (d.get "path").bind pathFromJson,
        (d.get "client_id").bind Uuid.fromJson, (d.get "user_id").bind Uuid.fromJson with
  | some p, some cid, some uid => some (p, cid, uid)
  | _, _, _ => none

/-- serde deserialization of `SyncMessage`: dispatch on the `"type"` tag, then
read the variant's fields out of `"data"`; anything else is a decode error. -/
def SyncMessage.fromJson (j : Json) : Option SyncMessage :=
  match j.get "type" with
  | some (.str "Init") =>
      match (j.get "data").bind (fun d => (d.get "client_id").bind Uuid.fromJson) with
      | some cid => some (.Init cid)
      | none => none
  | some (.str "FileCreated") =>
      match (j.get "data").bind decodePathSourceIds with
      | some (p, s, cid, uid) => some (.FileCreated p s cid uid)
      | none => none
  | some (.str "FolderCreated") =>
      match (j.get "data").bind decodePathIds with
      | some (p, cid, uid) => some (.FolderCreated p cid uid)
      | none => none
  | some (.str "FileChanged") =>
      match (j.get "data").bind (fun d =>
        match decodePathSourceIds d, (d.get "timestamp").bind SystemTime.fromJson with
        | some f, some t => some (f, t)
        | _, _ => none) with
      | some ((p, s, cid, uid), t) => some (.FileChanged p t s cid uid)
      | none => none
  | some (.str "FileDeleted") =>
      match (j.get "data").bind decodePathSourceIds with
      | some (p, s, cid, uid) => some (.FileDeleted p s cid uid)
      | none => none
  | some (.str "FolderDeleted") =>
      match (j.get "data").bind decodePathIds with
      | some (p, cid, uid) => some (.FolderDeleted p cid uid)
      | none => none
  | some (.str "ObjectCreated") =>
      match (j.get "data").bind decodePathSourceIds with
      | some (p, s, cid, uid) => some (.ObjectCreated p s cid uid)
      | none => none
  | some (.str "ObjectDeleted") =>
      match (j.get "data").bind decodePathSourceIds with
      | some (p, s, cid, uid) => some (.ObjectDeleted p s cid uid)
      | none => none
  | some (.str "Ping") => some .Ping
  | some (.str "Pong") => some .Pong
  | _ => none

/-- serde serialization of a `SyncEnvelope` (plain struct: both fields). -/
def SyncEnvelope.toJson (e : SyncEnvelope) : Json :=
  .obj [("sender_id", e.sender_id.toJson), ("message", e.message.toJson)]

/-- serde deserialization of a `SyncEnvelope`: both fields must be present and
well-typed, exactly as `serde_json::from_str::<SyncEnvelope>` requires. -/
def SyncEnvelope.fromJson (j : Json) : Option SyncEnvelope :=
  match (j.get "sender_id").bind Uuid.fromJson,
        (j.get "message").bind SyncMessage.fromJson with
  | some sid, some m => some ⟨sid, m⟩
  | _, _ => none

theorem syncMessage_fromJson_toJson (m : SyncMessage) :
    SyncMessage.fromJson m.toJson = some m := by
  cases m with
  | Init cid => rfl
  | FileCreated p s cid uid => cases s <;> rfl
  | FolderCreated p cid uid => rfl
  | FileChanged p t s cid uid => cases s <;> rfl
  | FileDeleted p s cid uid => cases s <;> rfl
  | FolderDeleted p cid uid => rfl
  | ObjectCreated p s cid uid => cases s <;> rfl
  | ObjectDeleted p s cid uid => cases s <;> rfl
  | Ping => rfl
  | Pong => rfl

theorem syncEnvelope_fromJson_toJson (e : SyncEnvelope) :
    SyncEnvelope.fromJson e.toJson = some e := by
  obtain ⟨sid, m⟩ := e
  have hm := syncMessage_fromJson_toJson m
  simp [SyncEnvelope.toJson, SyncEnvelope.fromJson, Json.get, List.lookup, hm,
    Uuid.toJson, Uuid.fromJson]

/-- A registered session as the hub stores it (`SyncClient`,
app_state.rs:13-18). The session's `tokio` unbounded sender is modelled by
whether its receiving end still exists (`senderOpen`) together with the
ordered list of payloads successfully enqueued so far (`queue`). -/
structure SyncClient where
  client_id : Uuid
  user_id : Uuid
  senderOpen : Bool
  queue : List Json
deriving Repr

/-- One `sender.send(msg)` call on a session's unbounded channel: it succeeds
and enqueues exactly when the receiver is still alive, otherwise it fails and
leaves the queue untouched. Returns the updated client and the `is_ok` bit of
the result. -/
def trySend (c : SyncClient) (payload : Json) : SyncClient × Bool :=
  if c.senderOpen then ({ c with queue := c.queue ++ [payload] }, true) else (c, false)

/-- Body of the relay loop in `handle_socket` (sync_engine.rs:127-135) for a
single registry entry: if the entry's id differs from the envelope's
`sender_id`, differs from the server identity, and its `user_id` equals the
authenticated user's, the raw received payload is sent (`let _ =` discards the
send result); otherwise the entry is untouched. -/
def peerStep (serverId authUserId envSenderId : Uuid) (payload : Json)
    (c : SyncClient) : SyncClient :=
  if c.client_id ≠ envSenderId ∧ c.client_id ≠ serverId ∧ c.user_id = authUserId
  then (trySend c payload).1
  else c

/-- The peer-relay broadcast of sync_engine.rs:126-135 (`broadcastToUser` in
the spec): iterate every registered session under the lock, applying
`peerStep` to each; send failures are ignored and membership never changes. -/
def broadcastToUser (serverId authUserId envSenderId : Uuid) (payload : Json)
    (clients : List SyncClient) : List SyncClient :=
  clients.map (peerStep serverId authUserId envSenderId payload)

/-- One retain-closure evaluation from the notification-relay loop
(app_state.rs:49-61): send the serialized payload; the client is kept on `Ok`
and dropped from the registry on `Err`. -/
def relayDeliver (payload : Json) (c : SyncClient) : Option SyncClient :=
  match trySend c payload with
  | (c2, true) => some c2
  | (_, false) => none

/-- Body of the notification-relay task spawned in `create_app_state`
(app_state.rs:38-63; `broadcastAll` in the spec): wrap the received message in
an envelope whose `sender_id` is the process-wide server identity, serialize
it once, then `retain` over all clients, delivering the one payload to each
and evicting those whose send failed. No other filtering is applied. -/
def broadcastAll (serverId : Uuid) (message : SyncMessage)
    (clients : List SyncClient) : List SyncClient :=
  let payload := SyncEnvelope.toJson { sender_id := serverId, message := message }
  clients.filterMap (relayDeliver payload)

/-- Inbound WebSocket frames as `axum::extract::ws::Message` presents them to
the loop; a text frame carries its payload, modelled at the JSON-document
level. -/
inductive Message where
  | Text (payload : Json)
  | Binary (bytes : List Nat)
  | Ping (bytes : List Nat)
  | Pong (bytes : List Nat)
  | Close
deriving Repr

/-- State the inbound loop of `handle_socket` acts on: the shared client
registry and the log lines emitted so far by `error!`. -/
structure HandlerState where
  clients : List SyncClient
  errorLog : List String
deriving Repr

/-- One iteration of the inbound loop of `handle_socket`
(sync_engine.rs:120-140): text frames are decoded — on success the raw
received payload is relayed through the peer broadcast keyed on the
envelope's own `sender_id`, on failure an error is logged and nothing else
happens — and every non-text frame is skipped entirely. -/
def processFrame (serverId authUserId : Uuid) (st : HandlerState)
    (m : Message) : HandlerState :=
  match m with
  | .Text payload =>
      match SyncEnvelope.fromJson payload with
      | some envelope =>
          { st with clients :=
              broadcastToUser serverId authUserId envelope.sender_id payload st.clients }
      | none =>
          { st with errorLog := st.errorLog ++ ["Failed to deserialize server message"] }
  | _ => st

/-- The inbound loop of `handle_socket` over a finite prefix of received
frames; the loop body never breaks, so this is a plain fold. -/
def processFrames (serverId authUserId : Uuid) (st : HandlerState)
    (ms : List Message) : HandlerState :=
  ms.foldl (processFrame serverId authUserId) st

/-- The bounded `mpsc::channel::<SyncMessage>(100)` of app_state.rs:34, as the
producers in storage.rs see it. -/
structure NotifyChannel where
  capacity : Nat
  queued : List SyncMessage
  closed : Bool
deriving DecidableEq, Repr

/-- Result of polling `Sender::send(msg)` once: the message is accepted when
the channel is open and below capacity; a closed channel yields the send
error; a full channel leaves the future pending, keeping the caller
suspended. -/
inductive SendPoll where
  | sent (ch : NotifyChannel)
  | pending
  | errClosed
deriving DecidableEq, Repr

/-- One poll of the bounded channel's `send` future. -/
def notifySend (ch : NotifyChannel) (m : SyncMessage) : SendPoll :=
  if ch.closed then .errClosed
  else if ch.queued.length < ch.capacity then .sent { ch with queued := ch.queued ++ [m] }
  else .pending

/-- `state.notify_tx.send(sync_msg).await` as `upload_font` performs it
(storage.rs:192): the await re-polls a pending send for as long as the relay
frees no capacity. The poll count is explicit; no branch of the source drops
the message or bounds the wait, so a full channel is re-polled forever. -/
def uploadNotifyAwait : Nat → NotifyChannel → SyncMessage → SendPoll
  | 0, ch, m => notifySend ch m
  | n + 1, ch, m =>
      match notifySend ch m with
      | .pending => uploadNotifyAwait n ch m
      | r => r

/-- Log lines `upload_font` emits about the notify outcome
(storage.rs:192-194): only a send `Err` (relay gone, channel closed) is
logged, as an error, not a warning. -/
def uploadNotifyLog (r : SendPoll) : List String :=
  match r with
  | .errClosed => ["Failed to notify about new file"]
  | _ => []

/-- HTTP status of the response `upload_font` returns after the notify step
(storage.rs:197): `Ok((StatusCode::OK, ...))` on every path that reaches the
notify, whatever the notify outcome. -/
def uploadResponseStatus (r : SendPoll) : Nat :=
  match r with
  | _ => 200

/-- Backpressure policy as the spec words it (§4.4): some bound on the number
of polls exists after which an open channel's awaited producer send is no
longer pending — it either completed or the event was dropped. Stated over
the source's `uploadNotifyAwait` to compare spec against code. -/
def specBoundedBackpressure : Prop :=
  ∃ bound : Nat, ∀ ch m, ch.closed = false → uploadNotifyAwait bound ch m ≠ SendPoll.pending

/-- Registry mutations the process performs: a connecting session's push
(sync_engine.rs:93-110), the disconnect retain (sync_engine.rs:145-148), the
relay broadcast with its eviction (app_state.rs:38-63), and the peer
broadcast (sync_engine.rs:126-135). -/
inductive RegistryOp where
  | register (c : SyncClient)
  | unregister (id : Uuid)
  | relayBroadcast (serverId : Uuid) (message : SyncMessage)
  | peerBroadcast (serverId authUserId envSenderId : Uuid) (payload : Json)

/-- Apply one registry mutation. -/
def applyOp (regs : List SyncClient) : RegistryOp → List SyncClient
  | .register c => regs ++ [c]
  | .unregister id => regs.filter (fun c => decide (c.client_id ≠ id))
  | .relayBroadcast serverId message => broadcastAll serverId message regs
  | .peerBroadcast serverId authUserId envSenderId payload =>
      broadcastToUser serverId authUserId envSenderId payload regs

/-- Apply a sequence of registry mutations. -/
def applyOps (regs : List SyncClient) (ops : List RegistryOp) : List SyncClient :=
  ops.foldl applyOp regs

/-- The ids handed to `register` operations in a trace; `Uuid::new_v4()`
freshness is modelled as the hypothesis that this list is duplicate-free and
disjoint from the starting registry. -/
def registerIds : List RegistryOp → List Uuid
  | [] => []
  | .register c :: ops => c.client_id :: registerIds ops
  | _ :: ops => registerIds ops

theorem trySend_fails_iff (c : SyncClient) (payload : Json) :
    (trySend c payload).2 = false ↔ c.senderOpen = false := by
  unfold trySend
  cases h : c.senderOpen <;> simp [h]

theorem peerStep_eq (serverId authUserId envSenderId : Uuid) (payload : Json)
    (c : SyncClient) :
    peerStep serverId authUserId envSenderId payload c =
      if c.user_id = authUserId ∧ c.client_id ≠ envSenderId ∧ c.client_id ≠ serverId
          ∧ c.senderOpen = true
      then { c with queue := c.queue ++ [payload] }
      else c := by
  unfold peerStep trySend
  by_cases h1 : c.client_id = envSenderId <;>
    by_cases h2 : c.client_id = serverId <;>
      by_cases h3 : c.user_id = authUserId <;>
        cases h4 : c.senderOpen <;>
          simp [h1, h2, h3, h4]

theorem peerStep_client_id (serverId authUserId envSenderId : Uuid) (payload : Json)
    (c : SyncClient) :
    (peerStep serverId authUserId envSenderId payload c).client_id = c.client_id := by
  rw [peerStep_eq]
  split <;> rfl

theorem broadcastToUser_ids (serverId authUserId envSenderId : Uuid) (payload : Json)
    (clients : List SyncClient) :
    (broadcastToUser serverId authUserId envSenderId payload clients).map
        (fun c => c.client_id) =
      clients.map (fun c => c.client_id) := by
  unfold broadcastToUser
  rw [List.map_map]
  apply List.map_congr_left
  intro c _
  exact peerStep_client_id serverId authUserId envSenderId payload c

theorem relayDeliver_eq (payload : Json) (c : SyncClient) :
    relayDeliver payload c =
      if c.senderOpen = true then some { c with queue := c.queue ++ [payload] }
      else none := by
  unfold relayDeliver trySend
  cases h : c.senderOpen <;> simp [h]

theorem filterMap_relayDeliver (payload : Json) (clients : List SyncClient) :
    clients.filterMap (relayDeliver payload) =
      (clients.filter fun c => c.senderOpen).map
        (fun c => { c with queue := c.queue ++ [payload] }) := by
  induction clients with
  | nil => rfl
  | cons c cs ih =>
      rw [List.filterMap_cons, List.filter_cons]
      cases h : c.senderOpen <;> simp [relayDeliver_eq, h, ih]

theorem broadcastAll_eq (serverId : Uuid) (message : SyncMessage)
    (clients : List SyncClient) :
    broadcastAll serverId message clients =
      (clients.filter fun c => c.senderOpen).map
        (fun c => { c with queue :=
          c.queue ++ [SyncEnvelope.toJson ⟨serverId, message⟩] }) :=
  filterMap_relayDeliver _ clients

theorem broadcastAll_ids_sublist (serverId : Uuid) (message : SyncMessage)
    (clients : List SyncClient) :
    List.Sublist
      ((broadcastAll serverId message clients).map (fun c => c.client_id))
      (clients.map (fun c => c.client_id)) := by
  rw [broadcastAll_eq, List.map_map]
  have hcomp :
      (clients.filter fun c => c.senderOpen).map
          ((fun c => c.client_id) ∘
            (fun c => { c with queue :=
              c.queue ++ [SyncEnvelope.toJson ⟨serverId, message⟩] })) =
        (clients.filter fun c => c.senderOpen).map (fun c => c.client_id) := by
    apply List.map_congr_left
    intro c _
    rfl
  rw [hcomp]
  exact (List.filter_sublist clients).map _

theorem registerIds_cons_register (c : SyncClient) (ops : List RegistryOp) :
    registerIds (RegistryOp.register c :: ops) = c.client_id :: registerIds ops := rfl

theorem applyOps_nodup (ops : List RegistryOp) (regs : List SyncClient)
    (hreg : (regs.map fun c => c.client_id).Nodup)
    (hops : (registerIds ops).Nodup)
    (hdisj : ∀ id ∈ regs.map fun c => c.client_id, id ∉ registerIds ops) :
    ((applyOps regs ops).map fun c => c.client_id).Nodup := by
  induction ops generalizing regs with
  | nil => exact hreg
  | cons op ops ih =>
      have hstep : applyOps regs (op :: ops) = applyOps (applyOp regs op) ops := rfl
      rw [hstep]
      cases op with
      | register c =>
          rw [registerIds_cons_register, List.nodup_cons] at hops
          apply ih (regs ++ [c])
          · rw [List.map_append]
            refine List.Nodup.append hreg (by simp) ?_
            intro id hid1 hid2
            simp only [List.map_cons, List.map_nil, List.mem_singleton] at hid2
            subst hid2
            exact hdisj _ hid1 (by rw [registerIds_cons_register]; exact List.mem_cons_self _ _)
          · exact hops.2
          · intro id hid
            rw [List.map_append] at hid
            rcases List.mem_append.mp hid with h | h
            · intro hmem
              exact hdisj id h (by rw [registerIds_cons_register]; exact List.mem_cons_of_mem _ hmem)
            · simp only [List.map_cons, List.map_nil, List.mem_singleton] at h
              subst h
              exact hops.1
      | unregister i =>
          have hsub : List.Sublist
              ((applyOp regs (RegistryOp.unregister i)).map fun c => c.client_id)
              (regs.map fun c => c.client_id) := by
            simp only [applyOp]
            exact (List.filter_sublist regs).map _
          have hids : registerIds (RegistryOp.unregister i :: ops) = registerIds ops := rfl
          rw [hids] at hops hdisj
          exact ih _ (List.Nodup.sublist hsub hreg) hops
            (fun id hid => hdisj id (hsub.subset hid))
      | relayBroadcast serverId message =>
          have hsub := broadcastAll_ids_sublist serverId message regs
          have hids :
              registerIds (RegistryOp.relayBroadcast serverId message :: ops) =
                registerIds ops := rfl
          rw [hids] at hops hdisj
          exact ih _ (List.Nodup.sublist hsub hreg) hops
            (fun id hid => hdisj id (hsub.subset hid))
      | peerBroadcast serverId authUserId envSenderId payload =>
          have heq := broadcastToUser_ids serverId authUserId envSenderId payload regs
          have hids :
              registerIds
                  (RegistryOp.peerBroadcast serverId authUserId envSenderId payload :: ops) =
                registerIds ops := rfl
          rw [hids] at hops hdisj
          refine ih _ ?_ hops ?_
          · show ((broadcastToUser serverId authUserId envSenderId payload regs).map
                fun c => c.client_id).Nodup
            rw [heq]
            exact hreg
          · intro id hid
            apply hdisj id
            rw [show (applyOp regs
                (RegistryOp.peerBroadcast serverId authUserId envSenderId payload)) =
              broadcastToUser serverId authUserId envSenderId payload regs from rfl,
              heq] at hid
            exact hid

theorem uploadNotifyAwait_pending (n : Nat) (ch : NotifyChannel) (m : SyncMessage)
    (hopen : ch.closed = false) (hfull : ch.capacity ≤ ch.queued.length) :
    uploadNotifyAwait n ch m = SendPoll.pending := by
  have hsend : notifySend ch m = SendPoll.pending := by
    unfold notifySend
    rw [hopen]
    simp [Nat.not_lt.mpr hfull]
  induction n with
  | zero => simpa [uploadNotifyAwait] using hsend
  | succ k ih => simp [uploadNotifyAwait, hsend, ih]

/-- Claim C1: when an inbound text frame decodes to an envelope, the raw
received payload — not a re-encoding — is enqueued to exactly those
registered sessions with a live queue whose `user_id` equals the
authenticated user's, whose id differs from the envelope's `sender_id`, and
whose id differs from the server identity; every other entry keeps its queue,
membership is unchanged, and no error is logged. -/
theorem C1_relay_verbatim_exact (serverId authUserId : Uuid) (st : HandlerState)
    (payload : Json) (env : SyncEnvelope)
    (hdec : SyncEnvelope.fromJson payload = some env) :
    (processFrame serverId authUserId st (.Text payload)).clients =
      st.clients.map (fun c =>
        if c.user_id = authUserId ∧ c.client_id ≠ env.sender_id ∧ c.client_id ≠ serverId
            ∧ c.senderOpen = true
        then { c with queue := c.queue ++ [payload] }
        else c)
    ∧ (processFrame serverId authUserId st (.Text payload)).errorLog = st.errorLog := by
  constructor
  · simp only [processFrame, hdec, broadcastToUser]
    apply List.map_congr_left
    intro c _
    exact peerStep_eq serverId authUserId env.sender_id payload c
  · simp [processFrame, hdec]

/-- Witness for C1 at a three-session registry: the sender's session `"a"`
and the other user's session `"c"` are untouched; `"b"` receives the raw
payload. -/
theorem C1_relay_verbatim_exact_witness :
    SyncEnvelope.fromJson (SyncEnvelope.toJson ⟨⟨"a"⟩, SyncMessage.Ping⟩) =
      some ⟨⟨"a"⟩, SyncMessage.Ping⟩
    ∧ ((processFrame ⟨"srv"⟩ ⟨"u1"⟩
          ⟨[⟨⟨"a"⟩, ⟨"u1"⟩, true, []⟩, ⟨⟨"b"⟩, ⟨"u1"⟩, true, []⟩,
            ⟨⟨"c"⟩, ⟨"u2"⟩, true, []⟩], []⟩
          (.Text (SyncEnvelope.toJson ⟨⟨"a"⟩, SyncMessage.Ping⟩))).clients =
        [⟨⟨"a"⟩, ⟨"u1"⟩, true, []⟩, ⟨⟨"b"⟩, ⟨"u1"⟩, true, []⟩,
            ⟨⟨"c"⟩, ⟨"u2"⟩, true, []⟩].map (fun c =>
          if c.user_id = (⟨"u1"⟩ : Uuid) ∧ c.client_id ≠ (⟨"a"⟩ : Uuid)
              ∧ c.client_id ≠ (⟨"srv"⟩ : Uuid) ∧ c.senderOpen = true
          then { c with queue :=
            c.queue ++ [SyncEnvelope.toJson ⟨⟨"a"⟩, SyncMessage.Ping⟩] }
          else c)
        ∧ (processFrame ⟨"srv"⟩ ⟨"u1"⟩
            ⟨[⟨⟨"a"⟩, ⟨"u1"⟩, true, []⟩, ⟨⟨"b"⟩, ⟨"u1"⟩, true, []⟩,
              ⟨⟨"c"⟩, ⟨"u2"⟩, true, []⟩], []⟩
            (.Text (SyncEnvelope.toJson ⟨⟨"a"⟩, SyncMessage.Ping⟩))).errorLog = []) :=
  ⟨rfl, C1_relay_verbatim_exact ⟨"srv"⟩ ⟨"u1"⟩
    ⟨[⟨⟨"a"⟩, ⟨"u1"⟩, true, []⟩, ⟨⟨"b"⟩, ⟨"u1"⟩, true, []⟩,
      ⟨⟨"c"⟩, ⟨"u2"⟩, true, []⟩], []⟩
    (SyncEnvelope.toJson ⟨⟨"a"⟩, SyncMessage.Ping⟩) ⟨⟨"a"⟩, SyncMessage.Ping⟩ rfl⟩

/-- Claim C2, counterexample: session `"b"` (matching user, closed queue) has
a failed delivery in the peer broadcast — `trySend` returns `false` — yet it
is still present in the registry afterwards: the peer relay of
sync_engine.rs:133 discards the send result and never evicts, contrary to
the claim that every broadcast operation evicts failed recipients. -/
theorem C2_peer_no_eviction_counterexample :
    (trySend ⟨⟨"b"⟩, ⟨"u"⟩, false, []⟩ (Json.str "p")).2 = false
    ∧ broadcastToUser ⟨"srv"⟩ ⟨"u"⟩ ⟨"a"⟩ (Json.str "p")
        [⟨⟨"b"⟩, ⟨"u"⟩, false, []⟩] =
      [⟨⟨"b"⟩, ⟨"u"⟩, false, []⟩] :=
  ⟨rfl, rfl⟩

/-- Claim C2 as amended: only the notification relay's broadcast evicts — it
keeps exactly the sessions whose queue is live, delivering the current
payload to each of them, so a failed recipient is gone within that same
broadcast and every other recipient still receives; the peer broadcast
ignores delivery failures entirely, never evicting anyone, while still
delivering to every other matching live session. -/
theorem C2_eviction_relay_only (serverId authUserId envSenderId : Uuid)
    (message : SyncMessage) (payload : Json) (clients : List SyncClient) :
    broadcastAll serverId message clients =
      (clients.filter fun c => c.senderOpen).map
        (fun c => { c with queue :=
          c.queue ++ [SyncEnvelope.toJson ⟨serverId, message⟩] })
    ∧ broadcastToUser serverId authUserId envSenderId payload clients =
        clients.map (fun c =>
          if c.user_id = authUserId ∧ c.client_id ≠ envSenderId ∧ c.client_id ≠ serverId
              ∧ c.senderOpen = true
          then { c with queue := c.queue ++ [payload] }
          else c) := by
  constructor
  · exact broadcastAll_eq serverId message clients
  · unfold broadcastToUser
    apply List.map_congr_left
    intro c _
    exact peerStep_eq serverId authUserId envSenderId payload c

/-- Claim C3, counterexample: the notification relay delivers to every
session regardless of user. Here a session of user `"u2"` receives a relay
envelope whose message carries `user_id = "u1"` — relay traffic belonging to
a different user. -/
theorem C3_cross_user_relay_counterexample :
    broadcastAll ⟨"srv"⟩ (SyncMessage.ObjectCreated "a/b.ttf" .Server ⟨"c"⟩ ⟨"u1"⟩)
        [⟨⟨"b"⟩, ⟨"u2"⟩, true, []⟩] =
      [⟨⟨"b"⟩, ⟨"u2"⟩, true,
        [SyncEnvelope.toJson
          ⟨⟨"srv"⟩, SyncMessage.ObjectCreated "a/b.ttf" .Server ⟨"c"⟩ ⟨"u1"⟩⟩]⟩] :=
  rfl

/-- Claim C3 as amended: user partitioning holds for the peer relay only — a
registry entry whose `user_id` differs from the authenticated sender's user
is never touched by `broadcastToUser` — while the notification relay's
broadcast delivers to every live session whatever its `user_id`. -/
theorem C3_partition_peer_only :
    (∀ (serverId authUserId envSenderId : Uuid) (payload : Json) (c : SyncClient),
        c.user_id ≠ authUserId →
          peerStep serverId authUserId envSenderId payload c = c)
    ∧ ∀ (serverId : Uuid) (message : SyncMessage) (c : SyncClient),
        c.senderOpen = true →
          relayDeliver (SyncEnvelope.toJson ⟨serverId, message⟩) c =
            some { c with queue :=
              c.queue ++ [SyncEnvelope.toJson ⟨serverId, message⟩] } := by
  constructor
  · intro serverId authUserId envSenderId payload c h
    rw [peerStep_eq]
    simp [h]
  · intro serverId message c h
    rw [relayDeliver_eq]
    simp [h]

/-- Witness for C3 as amended: a `"u2"` session is untouched by a `"u1"` peer
broadcast, and the same session does receive a relay delivery. -/
theorem C3_partition_peer_only_witness :
    ((⟨⟨"b"⟩, ⟨"u2"⟩, true, []⟩ : SyncClient).user_id ≠ (⟨"u1"⟩ : Uuid)
    ∧ peerStep ⟨"srv"⟩ ⟨"u1"⟩ ⟨"a"⟩ (Json.str "p") ⟨⟨"b"⟩, ⟨"u2"⟩, true, []⟩ =
        ⟨⟨"b"⟩, ⟨"u2"⟩, true, []⟩)
    ∧ ((⟨⟨"b"⟩, ⟨"u2"⟩, true, []⟩ : SyncClient).senderOpen = true
    ∧ relayDeliver (SyncEnvelope.toJson ⟨⟨"srv"⟩, SyncMessage.Ping⟩)
          ⟨⟨"b"⟩, ⟨"u2"⟩, true, []⟩ =
        some ⟨⟨"b"⟩, ⟨"u2"⟩, true, [SyncEnvelope.toJson ⟨⟨"srv"⟩, SyncMessage.Ping⟩]⟩) :=
  ⟨⟨by decide, C3_partition_peer_only.1 ⟨"srv"⟩ ⟨"u1"⟩ ⟨"a"⟩ (Json.str "p")
      ⟨⟨"b"⟩, ⟨"u2"⟩, true, []⟩ (by decide)⟩,
   ⟨rfl, C3_partition_peer_only.2 ⟨"srv"⟩ SyncMessage.Ping
      ⟨⟨"b"⟩, ⟨"u2"⟩, true, []⟩ rfl⟩⟩

/-- Claim C4, counterexample: the relay loop of app_state.rs:49-61 applies no
exclusion at all — a registry entry whose id equals the server identity still
receives the relay payload, contrary to the claim's "excluding only the
reserved server identity". -/
theorem C4_no_server_exclusion_counterexample :
    broadcastAll ⟨"srv"⟩ SyncMessage.Ping [⟨⟨"srv"⟩, ⟨"u"⟩, true, []⟩] =
      [⟨⟨"srv"⟩, ⟨"u"⟩, true, [SyncEnvelope.toJson ⟨⟨"srv"⟩, SyncMessage.Ping⟩]⟩] :=
  rfl

/-- Claim C4 as amended: on each received event the relay wraps it in an
envelope whose `sender_id` is the process-wide server identity, serializes
it once, and delivers that one payload to every registered session with a
live queue regardless of its `user_id`, with no exclusion check of any kind
(the server identity itself never registers a session, so in reachable
registries nothing is excluded by that either). -/
theorem C4_relay_fanout (serverId : Uuid) (message : SyncMessage)
    (clients : List SyncClient) :
    broadcastAll serverId message clients =
      (clients.filter fun c => c.senderOpen).map
        (fun c => { c with queue :=
          c.queue ++ [SyncEnvelope.toJson ⟨serverId, message⟩] })
    ∧ (SyncEnvelope.toJson ⟨serverId, message⟩).get "sender_id" =
        some (Json.str serverId.val) :=
  ⟨broadcastAll_eq serverId message clients, rfl⟩

/-- Claim C5, counterexample: self-echo suppression keys on the envelope's
claimed `sender_id`, not on the sending session. Here the registry holds only
the sending session `"a"` (whose handler is the one processing the frame); it
sends an envelope claiming `sender_id = "b"`, and its own queue receives the
relayed payload back. -/
theorem C5_spoofed_sender_counterexample :
    (processFrame ⟨"srv"⟩ ⟨"u"⟩ ⟨[⟨⟨"a"⟩, ⟨"u"⟩, true, []⟩], []⟩
        (.Text (SyncEnvelope.toJson ⟨⟨"b"⟩, SyncMessage.Ping⟩))).clients =
      [⟨⟨"a"⟩, ⟨"u"⟩, true, [SyncEnvelope.toJson ⟨⟨"b"⟩, SyncMessage.Ping⟩]⟩] :=
  rfl

/-- Claim C5 as amended: suppression holds exactly for the claimed identity —
any registry entry whose id equals the envelope's `sender_id` is never
delivered to by the peer relay; a session that puts a different `sender_id`
into its envelope receives its own message back. -/
theorem C5_suppression_by_claimed_id (serverId authUserId envSenderId : Uuid)
    (payload : Json) (c : SyncClient) (h : c.client_id = envSenderId) :
    peerStep serverId authUserId envSenderId payload c = c := by
  rw [peerStep_eq]
  simp [h]

/-- Witness for C5 as amended: the entry whose id equals the claimed sender is
untouched. -/
theorem C5_suppression_by_claimed_id_witness :
    ((⟨⟨"a"⟩, ⟨"u"⟩, true, []⟩ : SyncClient).client_id = (⟨"a"⟩ : Uuid))
    ∧ peerStep ⟨"srv"⟩ ⟨"u"⟩ ⟨"a"⟩ (Json.str "p") ⟨⟨"a"⟩, ⟨"u"⟩, true, []⟩ =
        ⟨⟨"a"⟩, ⟨"u"⟩, true, []⟩ :=
  ⟨rfl, C5_suppression_by_claimed_id ⟨"srv"⟩ ⟨"u"⟩ ⟨"a"⟩ (Json.str "p")
    ⟨⟨"a"⟩, ⟨"u"⟩, true, []⟩ rfl⟩

/-- Claim C6, counterexample: no poll bound exists after which `upload_font`'s
awaited `notify_tx.send` stops pending on an open channel — with the relay
stalled and the channel full (capacity 100, 100 queued events, app_state.rs:34)
the producer is still waiting after any number of polls, and the event is
never dropped; storage.rs:192 has no timeout or drop branch. -/
theorem C6_unbounded_wait_counterexample : ¬ specBoundedBackpressure := by
  intro h
  obtain ⟨bound, hb⟩ := h
  exact hb ⟨100, List.replicate 100 SyncMessage.Ping, false⟩ SyncMessage.Ping rfl
    (uploadNotifyAwait_pending bound _ _ rfl (by simp))

/-- Claim C6 as amended: while the channel is saturated and the relay frees no
capacity, `upload_font`'s awaited send stays pending at every poll count — the
event is neither dropped nor logged — and whatever the notify outcome the
producing request still completes with status 200 (only a closed channel is
even logged, as an error). -/
theorem C6_saturation_behavior :
    (∀ (n : Nat) (ch : NotifyChannel) (m : SyncMessage),
        ch.closed = false → ch.capacity ≤ ch.queued.length →
          uploadNotifyAwait n ch m = SendPoll.pending
          ∧ uploadNotifyLog (uploadNotifyAwait n ch m) = [])
    ∧ ∀ r : SendPoll, uploadResponseStatus r = 200 := by
  constructor
  · intro n ch m hopen hfull
    have h := uploadNotifyAwait_pending n ch m hopen hfull
    refine ⟨h, ?_⟩
    rw [h]
    rfl
  · intro r
    rfl

/-- Witness for C6 as amended, at a full open channel and seven polls. -/
theorem C6_saturation_behavior_witness :
    ((⟨100, List.replicate 100 SyncMessage.Ping, false⟩ : NotifyChannel).closed = false
    ∧ (⟨100, List.replicate 100 SyncMessage.Ping, false⟩ : NotifyChannel).capacity ≤
        (⟨100, List.replicate 100 SyncMessage.Ping, false⟩ : NotifyChannel).queued.length
    ∧ uploadNotifyAwait 7 ⟨100, List.replicate 100 SyncMessage.Ping, false⟩
        SyncMessage.Ping = SendPoll.pending)
    ∧ uploadResponseStatus SendPoll.pending = 200 :=
  ⟨⟨rfl, by simp,
    (C6_saturation_behavior.1 7 ⟨100, List.replicate 100 SyncMessage.Ping, false⟩
      SyncMessage.Ping rfl (by simp)).1⟩,
   C6_saturation_behavior.2 SendPoll.pending⟩

/-- Claim C7: decoding the encoding of any envelope — over every message
variant and all fields — yields the original value, so the serde codec
round-trips exactly and re-encoding a decoded value is deterministic. -/
theorem C7_envelope_roundtrip (e : SyncEnvelope) :
    SyncEnvelope.fromJson (SyncEnvelope.toJson e) = some e :=
  syncEnvelope_fromJson_toJson e

/-- Claim C8: a text frame whose payload fails to decode only appends the
decode-error log line — the registry (and every queue in it) is unchanged,
nothing is relayed — and the loop goes on to process the remaining frames
from the same state, so a subsequent well-formed envelope is handled
normally. -/
theorem C8_decode_error_dropped (serverId authUserId : Uuid) (st : HandlerState)
    (payload : Json) (rest : List Message)
    (hdec : SyncEnvelope.fromJson payload = none) :
    processFrame serverId authUserId st (.Text payload) =
      { st with errorLog := st.errorLog ++ ["Failed to deserialize server message"] }
    ∧ processFrames serverId authUserId st (Message.Text payload :: rest) =
        processFrames serverId authUserId
          { st with errorLog := st.errorLog ++ ["Failed to deserialize server message"] }
          rest := by
  have h1 : processFrame serverId authUserId st (.Text payload) =
      { st with errorLog := st.errorLog ++ ["Failed to deserialize server message"] } := by
    simp [processFrame, hdec]
  refine ⟨h1, ?_⟩
  show (Message.Text payload :: rest).foldl (processFrame serverId authUserId) st = _
  rw [List.foldl_cons, h1]
  rfl

/-- Witness for C8: a malformed payload is logged and dropped, then a valid
`Ping` envelope on the same connection is still processed. -/
theorem C8_decode_error_dropped_witness :
    SyncEnvelope.fromJson (Json.str "oops") = none
    ∧ (processFrame ⟨"srv"⟩ ⟨"u"⟩ ⟨[⟨⟨"b"⟩, ⟨"u"⟩, true, []⟩], []⟩
          (.Text (Json.str "oops")) =
        ⟨[⟨⟨"b"⟩, ⟨"u"⟩, true, []⟩], ["Failed to deserialize server message"]⟩
    ∧ processFrames ⟨"srv"⟩ ⟨"u"⟩ ⟨[⟨⟨"b"⟩, ⟨"u"⟩, true, []⟩], []⟩
          [Message.Text (Json.str "oops"),
           Message.Text (SyncEnvelope.toJson ⟨⟨"a"⟩, SyncMessage.Ping⟩)] =
        processFrames ⟨"srv"⟩ ⟨"u"⟩
          ⟨[⟨⟨"b"⟩, ⟨"u"⟩, true, []⟩], ["Failed to deserialize server message"]⟩
          [Message.Text (SyncEnvelope.toJson ⟨⟨"a"⟩, SyncMessage.Ping⟩)]) :=
  ⟨rfl, C8_decode_error_dropped ⟨"srv"⟩ ⟨"u"⟩ ⟨[⟨⟨"b"⟩, ⟨"u"⟩, true, []⟩], []⟩
    (Json.str "oops")
    [Message.Text (SyncEnvelope.toJson ⟨⟨"a"⟩, SyncMessage.Ping⟩)] rfl⟩

/-- Claim C9: over every sequence of registry operations — session pushes,
disconnect retains, and both broadcast variants — started from the empty
registry, if the server-generated session ids handed to the pushes are
pairwise distinct (the `Uuid::new_v4()` freshness guarantee), the registry
never holds two entries with the same `client_id`. -/
theorem C9_registry_ids_nodup (ops : List RegistryOp)
    (hops : (registerIds ops).Nodup) :
    ((applyOps [] ops).map fun c => c.client_id).Nodup :=
  applyOps_nodup ops [] (by simp) hops (by simp)

/-- Witness for C9 on a concrete trace with two registrations, an
unregistration and a relay broadcast. -/
theorem C9_registry_ids_nodup_witness :
    (registerIds
        [RegistryOp.register ⟨⟨"a"⟩, ⟨"u"⟩, true, []⟩,
         RegistryOp.register ⟨⟨"b"⟩, ⟨"u"⟩, true, []⟩,
         RegistryOp.unregister ⟨"a"⟩,
         RegistryOp.relayBroadcast ⟨"srv"⟩ SyncMessage.Ping]).Nodup
    ∧ ((applyOps []
        [RegistryOp.register ⟨⟨"a"⟩, ⟨"u"⟩, true, []⟩,
         RegistryOp.register ⟨⟨"b"⟩, ⟨"u"⟩, true, []⟩,
         RegistryOp.unregister ⟨"a"⟩,
         RegistryOp.relayBroadcast ⟨"srv"⟩ SyncMessage.Ping]).map
        fun c => c.client_id).Nodup :=
  ⟨by decide, C9_registry_ids_nodup _ (by decide)⟩

/-- Claim C10: every non-text inbound frame is skipped by the inbound loop
body without any effect — no relay, no registry change, no log line, and no
closing of the session by this step. -/
theorem C10_nontext_ignored (serverId authUserId : Uuid) (st : HandlerState)
    (m : Message) (h : ∀ payload, m ≠ Message.Text payload) :
    processFrame serverId authUserId st m = st := by
  cases m with
  | Text payload => exact absurd rfl (h payload)
  | Binary bytes => rfl
  | Ping bytes => rfl
  | Pong bytes => rfl
  | Close => rfl

/-- Witness for C10 at a binary frame. -/
theorem C10_nontext_ignored_witness :
    (∀ payload, Message.Binary [1, 2, 3] ≠ Message.Text payload)
    ∧ processFrame ⟨"srv"⟩ ⟨"u"⟩ ⟨[⟨⟨"b"⟩, ⟨"u"⟩, true, []⟩], []⟩
        (Message.Binary [1, 2, 3]) =
      ⟨[⟨⟨"b"⟩, ⟨"u"⟩, true, []⟩], []⟩ :=
  ⟨fun _ h => Message.noConfusion h,
   C10_nontext_ignored ⟨"srv"⟩ ⟨"u"⟩ ⟨[⟨⟨"b"⟩, ⟨"u"⟩, true, []⟩], []⟩
     (Message.Binary [1, 2, 3]) (fun _ h => Message.noConfusion h)⟩
